import Mathlib

set_option linter.unusedVariables false
set_option maxRecDepth 16384

/-!
Verification of the strategy/registry/pipeline design of the repository
`ITESO-software-design-examen-2` (two Python files:
`ejercicio1/ejercicio1_entregable.py`, a notification dispatcher, and
`ejercicio2/ejercicio2_entregable.py`, a report generator).

Shallow-embedding conventions used throughout:
* Python `dict` inputs with possibly-missing keys are structures of `Option`
  fields; a `KeyError(k)` is `Except.error k`.
* `raise ValueError(msg)` is `Except.error msg` carrying the exact message.
* `datetime.now()` is modelled as an explicit `timestamp` parameter threaded
  to the functions that call it.
* `print` side effects are collected in an explicit `List String` trace.
* Monetary amounts (`amount`, `income`, `expenses`) are modelled in integer
  cents; `fmt2f` mirrors Python `format(x, ".2f")` at cent precision.
* Mutable object state (`self.history`, builder parts) is explicit state
  passing: each operation takes the state and returns the updated state.
-/

/-- The `HistoryManager` class, textually identical in both files
(`ejercicio1` line 110 with list field `notifications`, `ejercicio2` line 223
with list field `_reports`): a Python list, `save` appends at the end,
`get_all` returns the list.  Modelled once, generically in the record type;
the underlying list is called `records`. -/
structure HistoryManager (α : Type) where
  records : List α
deriving Repr, DecidableEq

/-- A fresh `HistoryManager` (`__init__`: empty list). -/
def HistoryManager.init {α : Type} : HistoryManager α := ⟨[]⟩

/-- `save`: `self.notifications.append(record)` / `self._reports.append(record)`. -/
def HistoryManager.save {α : Type} (h : HistoryManager α) (record : α) : HistoryManager α :=
  ⟨h.records ++ [record]⟩

/-- `get_all`: `return self.notifications` / `return self._reports`. -/
def HistoryManager.get_all {α : Type} (h : HistoryManager α) : List α :=
  h.records

namespace Ej2

/-- The sixty-character banner `"=" * 60` used by `ReportBuilder.header` and
by the closing line of `generate_report`. -/
def eqRule : String := String.mk (List.replicate 60 '=')

/-- The sixty-character divider `"-" * 60` used by `ReportBuilder.separator`. -/
def dashRule : String := String.mk (List.replicate 60 '-')

/-- `ReportBuilder` (ejercicio2 lines 9-28): accumulates text fragments in the
Python list `self.parts`. -/
structure ReportBuilder where
  parts : List String
deriving Repr, DecidableEq

/-- `ReportBuilder.__init__`: `self.parts = []`. -/
def ReportBuilder.new : ReportBuilder := ⟨[]⟩

/-- `add`: appends `text + "\n"` to `parts`. -/
def ReportBuilder.add (b : ReportBuilder) (text : String) : ReportBuilder :=
  ⟨b.parts ++ [text ++ "\n"]⟩

/-- `separator`: appends `"-" * 60 + "\n"` to `parts`. -/
def ReportBuilder.separator (b : ReportBuilder) : ReportBuilder :=
  ⟨b.parts ++ [dashRule ++ "\n"]⟩

/-- `header`: appends the banner, the indented (eleven spaces) title line and
the banner again. -/
def ReportBuilder.header (b : ReportBuilder) (title : String) : ReportBuilder :=
  ⟨b.parts ++ [eqRule ++ "\n", "           " ++ title ++ "\n", eqRule ++ "\n"]⟩

/-- `build`: `return "".join(self.parts)`.  A pure read of `parts`; the method
does not modify the builder. -/
def ReportBuilder.build (b : ReportBuilder) : String :=
  String.join b.parts

/-- Python `format(x, ".2f")` for a value given in integer cents. -/
def fmt2f (cents : Int) : String :=
  (if cents < 0 then "-" else "")
    ++ toString (cents.natAbs / 100) ++ "."
    ++ (if cents.natAbs % 100 < 10 then "0" else "")
    ++ toString (cents.natAbs % 100)

/-- One element of `data['sales']`: `{product, amount}` (amount in cents). -/
structure SaleItem where
  product : String
  amount : Int
deriving Repr, DecidableEq

/-- One element of `data['items']`: `{name, category, quantity}`. -/
structure InventoryItem where
  name : String
  category : String
  quantity : Nat
deriving Repr, DecidableEq

/-- The loosely-typed `data` dict passed to `generate_report`: each key the
report bodies may read is an `Option` field (`none` = key absent, so reading
it raises `KeyError`). -/
structure ReportData where
  period : Option String
  sales : Option (List SaleItem)
  items : Option (List InventoryItem)
  income : Option Int
  expenses : Option Int
deriving Repr, DecidableEq

/-- The three concrete `ReportStrategy` subclasses (template-method variants). -/
inductive ReportStrategy where
  | SalesReport
  | InventoryReport
  | FinancialReport
deriving Repr, DecidableEq

/-- The `title()` hook of each subclass. -/
def ReportStrategy.title : ReportStrategy → String
  | .SalesReport => "REPORTE DE VENTAS"
  | .InventoryReport => "REPORTE DE INVENTARIO"
  | .FinancialReport => "REPORTE FINANCIERO"

/-- `sum(item['amount'] for item in sales)`. -/
def sumAmounts (sales : List SaleItem) : Int :=
  (sales.map SaleItem.amount).sum

/-- `len(set(item['category'] for item in items))`: number of distinct
categories. -/
def distinctCategories (items : List InventoryItem) : Nat :=
  ((items.map InventoryItem.category).dedup).length

/-- The `body(builder, data)` hook of each subclass (ejercicio2 lines 64-109),
appending to the builder; reading an absent `data` key raises `KeyError`
(`Except.error` with the key name, keys read in the source's access order). -/
def ReportStrategy.body (s : ReportStrategy) (data : ReportData) (b : ReportBuilder) :
    Except String ReportBuilder :=
  match s with
  | .SalesReport =>
    match data.sales with
    | none => .error ("sales")
    | some sales =>
      match data.period with
      | none => .error ("period")
      | some period =>
        let total_sales := sumAmounts sales
        let b := b.add ("Total de ventas: $" ++ fmt2f total_sales)
        let b := b.add ("Número de transacciones: " ++ toString sales.length)
        let b := b.add ("Periodo: " ++ period ++ "\n")
        let b := b.add ("Detalle de ventas:")
        let b := b.separator
        .ok (sales.foldl
          (fun b sale => b.add ("  • Producto: " ++ sale.product ++ " - $" ++ fmt2f sale.amount)) b)
  | .InventoryReport =>
    match data.items with
    | none => .error ("items")
    | some items =>
      let total_items := (items.map InventoryItem.quantity).sum
      let categories := distinctCategories items
      let b := b.add ("Total de productos: " ++ toString total_items)
      let b := b.add ("Categorías: " ++ toString categories ++ "\n")
      let b := b.add ("Inventario actual:")
      let b := b.separator
      .ok (items.foldl
        (fun b item => b.add ("  • " ++ item.name ++ " (" ++ item.category ++ "): "
          ++ toString item.quantity ++ " unidades")) b)
  | .FinancialReport =>
    match data.income with
    | none => .error ("income")
    | some income =>
      match data.expenses with
      | none => .error ("expenses")
      | some expenses =>
        let balance := income - expenses
        let b := b.add ("Ingresos: $" ++ fmt2f income)
        let b := b.add ("Gastos: $" ++ fmt2f expenses)
        .ok (b.add ("Balance: $" ++ fmt2f balance))

/-- The template method `generate(data, timestamp)` (ejercicio2 lines 42-47):
fresh builder, header with the subclass title, timestamp line, subclass body,
then `build()`. -/
def ReportStrategy.generate (s : ReportStrategy) (data : ReportData) (timestamp : String) :
    Except String String :=
  let builder := ReportBuilder.new
  let builder := builder.header s.title
  let builder := builder.add ("Fecha de generación: " ++ timestamp ++ "\n")
  match s.body data builder with
  | .error e => .error e
  | .ok b => .ok b.build

/-- The three concrete `FormatStrategy` subclasses. -/
inductive FormatStrategy where
  | PDFFormatter
  | ExcelFormatter
  | HTMLFormatter
deriving Repr, DecidableEq

/-- `format(content)` of each formatter (ejercicio2 lines 121-136): a pure
wrapping of the content in the variant's markers. -/
def FormatStrategy.format : FormatStrategy → String → String
  | .PDFFormatter, content => "[PDF FORMAT]\n" ++ content ++ "\n[END PDF]"
  | .ExcelFormatter, content => "[EXCEL FORMAT]\n" ++ content ++ "\n[END EXCEL]"
  | .HTMLFormatter, content => "<html><body><pre>\n" ++ content ++ "\n</pre></body></html>"

/-- The status line each formatter prints before returning. -/
def FormatStrategy.printLine : FormatStrategy → String
  | .PDFFormatter => "📄 Generando reporte en formato PDF..."
  | .ExcelFormatter => "📊 Generando reporte en formato Excel..."
  | .HTMLFormatter => "🌐 Generando reporte en formato HTML..."

/-- The three concrete `DeliveryStrategy` subclasses. -/
inductive DeliveryStrategy where
  | EmailDelivery
  | DownloadDelivery
  | CloudDelivery
deriving Repr, DecidableEq

/-- `deliver(formatted_report, report_type, output_format)` (ejercicio2 lines
148-167): the side-effecting sink; its console output is returned as the
effect trace.  `DownloadDelivery` derives a filename from `datetime.now()`,
modelled by the `ts` parameter. -/
def DeliveryStrategy.deliver (d : DeliveryStrategy)
    (formatted_report report_type output_format ts : String) : List String :=
  match d with
  | .EmailDelivery =>
    ["📧 Enviando reporte por email...", "   Destinatario: admin@company.com"]
  | .DownloadDelivery =>
    ["💾 Reporte disponible para descarga:",
     "   Archivo: report_" ++ report_type ++ "_" ++ ts ++ "." ++ output_format]
  | .CloudDelivery =>
    ["☁️  Subiendo reporte a la nube...",
     "   URL: https://cloud.company.com/reports/" ++ report_type]

/-- The `ReportFactory._strategies` class-level table (ejercicio2 lines
175-179). -/
def ReportFactory.strategies : List (String × ReportStrategy) :=
  [("sales", .SalesReport), ("inventory", .InventoryReport), ("financial", .FinancialReport)]

/-- `ReportFactory.create` (ejercicio2 lines 181-186): `dict.get`, then
`raise ValueError(...)` on a missing key. -/
def ReportFactory.create (report_type : String) : Except String ReportStrategy :=
  match ReportFactory.strategies.lookup report_type with
  | some cls => .ok cls
  | none => .error ("Tipo de reporte desconocido: " ++ report_type)

/-- The `FormatFactory._strategies` table (ejercicio2 lines 190-194). -/
def FormatFactory.strategies : List (String × FormatStrategy) :=
  [("pdf", .PDFFormatter), ("excel", .ExcelFormatter), ("html", .HTMLFormatter)]

/-- `FormatFactory.create` (ejercicio2 lines 196-201). -/
def FormatFactory.create (output_format : String) : Except String FormatStrategy :=
  match FormatFactory.strategies.lookup output_format with
  | some cls => .ok cls
  | none => .error ("Formato desconocido: " ++ output_format)

/-- The `DeliveryFactory._strategies` table (ejercicio2 lines 205-209). -/
def DeliveryFactory.strategies : List (String × DeliveryStrategy) :=
  [("email", .EmailDelivery), ("download", .DownloadDelivery), ("cloud", .CloudDelivery)]

/-- `DeliveryFactory.create` (ejercicio2 lines 211-216). -/
def DeliveryFactory.create (delivery_method : String) : Except String DeliveryStrategy :=
  match DeliveryFactory.strategies.lookup delivery_method with
  | some cls => .ok cls
  | none => .error ("Método de entrega desconocido: " ++ delivery_method)

/-- The dict appended to the history by `generate_report`:
`{type, format, delivery, timestamp}`. -/
structure ReportRecord where
  type : String
  format : String
  delivery : String
  timestamp : String
deriving Repr, DecidableEq

/-- Result of one `ReportSystem.generate_report` call: the returned value (or
the propagated exception), the history state after the call, and the console
effect trace of the format/delivery/success stages. -/
structure GenResult where
  output : Except String String
  history : HistoryManager ReportRecord
  prints : List String
deriving Repr

/-- `ReportSystem.generate_report` (ejercicio2 lines 242-264): resolve the
three strategies, generate, format, deliver, append the history record, print
the success block, return the formatted report.  An exception anywhere leaves
the history as it was and propagates (`output = .error`). -/
def ReportSystem.generate_report (history : HistoryManager ReportRecord)
    (report_type : String) (data : ReportData) (output_format delivery_method : String)
    (timestamp : String) : GenResult :=
  match ReportFactory.create report_type with
  | .error e => ⟨.error e, history, []⟩
  | .ok report_strategy =>
  match FormatFactory.create output_format with
  | .error e => ⟨.error e, history, []⟩
  | .ok format_strategy =>
  match DeliveryFactory.create delivery_method with
  | .error e => ⟨.error e, history, []⟩
  | .ok delivery_strategy =>
  match report_strategy.generate data timestamp with
  | .error e => ⟨.error e, history, []⟩
  | .ok report_content =>
    let formatted_report := format_strategy.format report_content
    let delPrints := delivery_strategy.deliver formatted_report report_type output_format timestamp
    ⟨.ok formatted_report,
     history.save ⟨report_type, output_format, delivery_method, timestamp⟩,
     format_strategy.printLine :: delPrints
       ++ ["\n✅ Reporte generado exitosamente\n", formatted_report, "\n" ++ eqRule ++ "\n"]⟩

end Ej2

namespace Ej1

/-- The nested `customer` dict of an order: each required key is an `Option`
field (`none` = key absent). -/
structure CustomerData where
  name : Option String
  email : Option String
  phone : Option String
  device_id : Option String
deriving Repr, DecidableEq

/-- The raw `order_data` dict passed to `process_order`. -/
structure OrderData where
  order_id : Option String
  customer : Option CustomerData
  total : Option String
deriving Repr, DecidableEq

/-- The `OrderInfo` value object (ejercicio1 lines 9-18), fully populated.
`total` is carried as its rendered text (the source performs no coercion on
it; spec §4.2: numeric/string fields are passed through as-is). -/
structure OrderInfo where
  customer : CustomerData
  order_id : String
  total : String
  name : String
  email : String
  phone : String
  device : String
deriving Repr, DecidableEq

/-- `OrderInfo.__init__`: reads the keys in source order (`customer`,
`order_id`, `total`, then `customer`'s `name`, `email`, `phone`,
`device_id`); the first absent key raises `KeyError` with that key's name and
no `OrderInfo` is produced. -/
def OrderInfo.ofData (order_data : OrderData) : Except String OrderInfo :=
  match order_data.customer with
  | none => .error ("customer")
  | some customer =>
  match order_data.order_id with
  | none => .error ("order_id")
  | some order_id =>
  match order_data.total with
  | none => .error ("total")
  | some total =>
  match customer.name with
  | none => .error ("name")
  | some name =>
  match customer.email with
  | none => .error ("email")
  | some email =>
  match customer.phone with
  | none => .error ("phone")
  | some phone =>
  match customer.device_id with
  | none => .error ("device_id")
  | some device => .ok ⟨customer, order_id, total, name, email, phone, device⟩

/-- The dict returned by each `send` and appended to the history:
`{type, to, message, timestamp}`. -/
structure NotifRecord where
  type : String
  «to» : String
  message : String
  timestamp : String
deriving Repr, DecidableEq

/-- The three concrete `NotificationStrategy` subclasses. -/
inductive NotificationStrategy where
  | EmailNotification
  | SMSNotification
  | PushNotification
deriving Repr, DecidableEq

/-- `send(info)` of each subclass (ejercicio1 lines 34-84): builds the
message, prints the simulated send, returns the record dict.
`datetime.now().isoformat()` is modelled by the `ts` parameter.  The result
is the record together with the printed lines. -/
def NotificationStrategy.send (s : NotificationStrategy) (info : OrderInfo) (ts : String) :
    NotifRecord × List String :=
  match s with
  | .EmailNotification =>
    let message := "Estimado " ++ info.name ++ ", su pedido #" ++ info.order_id
      ++ " por $" ++ info.total ++ " ha sido confirmado."
    (⟨"email", info.email, message, ts⟩,
     ["📧 EMAIL enviado a " ++ info.email,
      "   Asunto: Confirmación de Pedido #" ++ info.order_id,
      "   Mensaje: " ++ message ++ "\n"])
  | .SMSNotification =>
    let message := "Pedido #" ++ info.order_id ++ " confirmado. Total: $" ++ info.total
      ++ ". Gracias por su compra!"
    (⟨"sms", info.phone, message, ts⟩,
     ["📱 SMS enviado a " ++ info.phone,
      "   Mensaje: " ++ message ++ "\n"])
  | .PushNotification =>
    let message := "¡Pedido confirmado! #" ++ info.order_id ++ " - $" ++ info.total
    (⟨"push", info.device, message, ts⟩,
     ["🔔 PUSH enviada al dispositivo " ++ info.device,
      "   Mensaje: " ++ message ++ "\n"])

/-- The `NotificationFactory._strategies` class-level table (ejercicio1 lines
92-96). -/
def NotificationFactory.strategies : List (String × NotificationStrategy) :=
  [("email", .EmailNotification), ("sms", .SMSNotification), ("push", .PushNotification)]

/-- `NotificationFactory.create` (ejercicio1 lines 98-103): `dict.get`, then
`raise ValueError(...)` on a missing key. -/
def NotificationFactory.create (notification_type : String) :
    Except String NotificationStrategy :=
  match NotificationFactory.strategies.lookup notification_type with
  | some cls => .ok cls
  | none => .error ("Tipo de notificación desconocido: " ++ notification_type)

/-- Result of one `OrderProcessor.process_order` call: the history state
after the call, the console trace, and the propagated exception if any. -/
structure ProcResult where
  history : HistoryManager NotifRecord
  prints : List String
  err : Option String
deriving Repr, DecidableEq

/-- The `for notif_type in notification_types` loop of `process_order`
(ejercicio1 lines 139-142): create the strategy, send, save the record.  An
unknown channel raises out of the loop; saves already performed remain in the
history. -/
def processChannels (info : OrderInfo) (ts : String) :
    List String → HistoryManager NotifRecord → List String → ProcResult
  | [], history, prints => ⟨history, prints, none⟩
  | notif_type :: rest, history, prints =>
    match NotificationFactory.create notif_type with
    | .error e => ⟨history, prints, some e⟩
    | .ok strategy =>
      let sent := strategy.send info ts
      processChannels info ts rest (history.save sent.1) (prints ++ sent.2)

/-- The fifty-character banner `"=" * 50` printed by `process_order`. -/
def eqRule50 : String := String.mk (List.replicate 50 '=')

/-- `OrderProcessor.process_order` (ejercicio1 lines 129-142): construct the
`OrderInfo` value object, print the order banner, then dispatch every
requested channel through `processChannels`. -/
def OrderProcessor.process_order (history : HistoryManager NotifRecord)
    (order_data : OrderData) (notification_types : List String) (ts : String) : ProcResult :=
  match OrderInfo.ofData order_data with
  | .error e => ⟨history, [], some e⟩
  | .ok info =>
    let banner := ["\n" ++ eqRule50,
      "Procesando pedido #" ++ info.order_id,
      "Cliente: " ++ info.name,
      "Total: $" ++ info.total,
      eqRule50 ++ "\n"]
    let looped := processChannels info ts notification_types history []
    ⟨looped.history, banner ++ looped.prints, looped.err⟩

/-- The records produced by the channels preceding the first unregistered key
of the list: the saves that `process_order` performs before an unknown
channel aborts the loop. -/
def sentRecords (info : OrderInfo) (ts : String) : List String → List NotifRecord
  | [] => []
  | t :: rest =>
    match NotificationFactory.create t with
    | .error _ => []
    | .ok s => (s.send info ts).1 :: sentRecords info ts rest

/-- The required field keys of `OrderInfo` that are absent from an order
dict, listed in the order `OrderInfo.__init__` reads them (`customer`,
`order_id`, `total`, then the customer sub-keys); a sub-key is listed only
when the `customer` dict itself is present. -/
def OrderData.missingKeys (d : OrderData) : List String :=
  (if d.customer.isNone then ["customer"] else [])
    ++ (if d.order_id.isNone then ["order_id"] else [])
    ++ (if d.total.isNone then ["total"] else [])
    ++ (match d.customer with
        | none => []
        | some c =>
          (if c.name.isNone then ["name"] else [])
            ++ (if c.email.isNone then ["email"] else [])
            ++ (if c.phone.isNone then ["phone"] else [])
            ++ (if c.device_id.isNone then ["device_id"] else []))

end Ej1

/-- A store of Python list objects: cell `r` of `cells` is the current
contents of the list object with reference `r`.  Used to state aliasing facts
about `HistoryManager.get_all`, which returns the internal list object itself
(`return self.notifications`), not a copy. -/
structure ListStore (α : Type) where
  cells : List (List α)
deriving Repr, DecidableEq

/-- Dereference a list object. -/
def ListStore.read {α : Type} (s : ListStore α) (r : Nat) : List α :=
  (s.cells.getD r [])

/-- `list.append` on the list object `r`. -/
def ListStore.appendAt {α : Type} (s : ListStore α) (r : Nat) (x : α) : ListStore α :=
  ⟨s.cells.set r (s.read r ++ [x])⟩

/-- The reference-level view of a `HistoryManager`: its `notifications` /
`_reports` attribute holds a reference to a list object in the store. -/
structure HistoryManagerRef where
  notifications : Nat
deriving Repr, DecidableEq

/-- `HistoryManager.__init__` at reference level: allocate a fresh empty list
object. -/
def HistoryManagerRef.init {α : Type} (s : ListStore α) : HistoryManagerRef × ListStore α :=
  (⟨s.cells.length⟩, ⟨s.cells ++ [[]]⟩)

/-- `save` at reference level: append to the owned list object. -/
def HistoryManagerRef.save {α : Type} (h : HistoryManagerRef) (x : α) (s : ListStore α) :
    ListStore α :=
  s.appendAt h.notifications x

/-- `get_all` at reference level: `return self.notifications` returns the
list object itself — the reference, not a copy of its contents. -/
def HistoryManagerRef.get_all (h : HistoryManagerRef) : Nat :=
  h.notifications



namespace Ej2

/-- One appending call on a `ReportBuilder`: `add(text)`, `separator()` or
`header(title)` (the three mutators of the class). -/
inductive BuilderOp where
  | add (text : String)
  | separator
  | header (title : String)
deriving Repr, DecidableEq

/-- Run one appending call on a builder. -/
def ReportBuilder.applyOp (b : ReportBuilder) : BuilderOp → ReportBuilder
  | .add text => b.add text
  | .separator => b.separator
  | .header title => b.header title

/-- The text fragments an appending call pushes onto `parts`. -/
def BuilderOp.fragments : BuilderOp → List String
  | .add text => [text ++ "\n"]
  | .separator => [dashRule ++ "\n"]
  | .header title => [eqRule ++ "\n", "           " ++ title ++ "\n", eqRule ++ "\n"]

end Ej2

namespace Ej1

/-- The first sample order of the `ejercicio1` demo block (lines 156-165);
`total = 150.50` renders as `150.5`. -/
def order1 : OrderData :=
  ⟨some "ORD-001",
   some ⟨some "Ana García", some "ana.garcia@email.com", some "+34-600-123-456",
         some "DEVICE-ABC-123"⟩,
   some "150.5"⟩

/-- The `OrderInfo` value object extracted from `order1`. -/
def order1Info : OrderInfo :=
  ⟨⟨some "Ana García", some "ana.garcia@email.com", some "+34-600-123-456",
    some "DEVICE-ABC-123"⟩,
   "ORD-001", "150.5", "Ana García", "ana.garcia@email.com", "+34-600-123-456",
   "DEVICE-ABC-123"⟩

end Ej1

/-! Helper lemmas shared by several results. -/

theorem stringJoin_foldl (l : List String) (a : String) :
    l.foldl (fun r s => r ++ s) a = a ++ l.foldl (fun r s => r ++ s) "" := by
  induction l generalizing a with
  | nil => simp [List.foldl]
  | cons s t ih =>
    simp only [List.foldl]
    rw [ih (a ++ s), ih ("" ++ s), String.empty_append, String.append_assoc]

theorem stringJoin_cons (s : String) (l : List String) :
    String.join (s :: l) = s ++ String.join l := by
  simp only [String.join, List.foldl, String.empty_append]
  exact stringJoin_foldl l s

theorem stringJoin_append (l₁ l₂ : List String) :
    String.join (l₁ ++ l₂) = String.join l₁ ++ String.join l₂ := by
  induction l₁ with
  | nil => simp [String.join]
  | cons s t ih => rw [List.cons_append, stringJoin_cons, stringJoin_cons, ih,
      String.append_assoc]

theorem stringJoin_singleton (s : String) :
    String.join [s] = s := by
  rw [stringJoin_cons]
  simp [String.join]

namespace Ej1

theorem NotificationFactory.notifCreate_eq (k : String) :
    NotificationFactory.create k =
      if k = "email" then .ok .EmailNotification
      else if k = "sms" then .ok .SMSNotification
      else if k = "push" then .ok .PushNotification
      else .error ("Tipo de notificación desconocido: " ++ k) := by
  by_cases h1 : k = "email"
  · subst h1; rfl
  by_cases h2 : k = "sms"
  · subst h2; rfl
  by_cases h3 : k = "push"
  · subst h3; rfl
  have b1 : (k == "email") = false := beq_eq_false_iff_ne.mpr h1
  have b2 : (k == "sms") = false := beq_eq_false_iff_ne.mpr h2
  have b3 : (k == "push") = false := beq_eq_false_iff_ne.mpr h3
  simp [NotificationFactory.create, NotificationFactory.strategies, List.lookup, b1, b2, b3, h1, h2, h3]

theorem processChannels_spec (info : OrderInfo) (ts : String) (types : List String)
    (h : HistoryManager NotifRecord) (acc : List String) :
    (processChannels info ts types h acc).history.records
      = h.records ++ sentRecords info ts types := by
  induction types generalizing h acc with
  | nil => simp [processChannels, sentRecords]
  | cons t rest ih =>
    cases hc : NotificationFactory.create t with
    | error e => simp [processChannels, sentRecords, hc]
    | ok s =>
      simp [processChannels, sentRecords, hc, ih, HistoryManager.save]

end Ej1

namespace Ej2

theorem ReportFactory.reportCreate_eq (k : String) :
    ReportFactory.create k =
      if k = "sales" then .ok .SalesReport
      else if k = "inventory" then .ok .InventoryReport
      else if k = "financial" then .ok .FinancialReport
      else .error ("Tipo de reporte desconocido: " ++ k) := by
  by_cases h1 : k = "sales"
  · subst h1; rfl
  by_cases h2 : k = "inventory"
  · subst h2; rfl
  by_cases h3 : k = "financial"
  · subst h3; rfl
  have b1 : (k == "sales") = false := beq_eq_false_iff_ne.mpr h1
  have b2 : (k == "inventory") = false := beq_eq_false_iff_ne.mpr h2
  have b3 : (k == "financial") = false := beq_eq_false_iff_ne.mpr h3
  simp [ReportFactory.create, ReportFactory.strategies, List.lookup, b1, b2, b3, h1, h2, h3]

theorem FormatFactory.formatCreate_eq (k : String) :
    FormatFactory.create k =
      if k = "pdf" then .ok .PDFFormatter
      else if k = "excel" then .ok .ExcelFormatter
      else if k = "html" then .ok .HTMLFormatter
      else .error ("Formato desconocido: " ++ k) := by
  by_cases h1 : k = "pdf"
  · subst h1; rfl
  by_cases h2 : k = "excel"
  · subst h2; rfl
  by_cases h3 : k = "html"
  · subst h3; rfl
  have b1 : (k == "pdf") = false := beq_eq_false_iff_ne.mpr h1
  have b2 : (k == "excel") = false := beq_eq_false_iff_ne.mpr h2
  have b3 : (k == "html") = false := beq_eq_false_iff_ne.mpr h3
  simp [FormatFactory.create, FormatFactory.strategies, List.lookup, b1, b2, b3, h1, h2, h3]

theorem DeliveryFactory.deliveryCreate_eq (k : String) :
    DeliveryFactory.create k =
      if k = "email" then .ok .EmailDelivery
      else if k = "download" then .ok .DownloadDelivery
      else if k = "cloud" then .ok .CloudDelivery
      else .error ("Método de entrega desconocido: " ++ k) := by
  by_cases h1 : k = "email"
  · subst h1; rfl
  by_cases h2 : k = "download"
  · subst h2; rfl
  by_cases h3 : k = "cloud"
  · subst h3; rfl
  have b1 : (k == "email") = false := beq_eq_false_iff_ne.mpr h1
  have b2 : (k == "download") = false := beq_eq_false_iff_ne.mpr h2
  have b3 : (k == "cloud") = false := beq_eq_false_iff_ne.mpr h3
  simp [DeliveryFactory.create, DeliveryFactory.strategies, List.lookup, b1, b2, b3, h1, h2, h3]

end Ej2

theorem HistoryManager.foldl_save {α : Type} (h : HistoryManager α) (rs : List α) :
    (rs.foldl HistoryManager.save h).records = h.records ++ rs := by
  induction rs generalizing h with
  | nil => simp
  | cons r t ih => simp [List.foldl, HistoryManager.save, ih]

theorem ReportBuilder.foldl_applyOp (b : Ej2.ReportBuilder) (ops : List Ej2.BuilderOp) :
    (ops.foldl Ej2.ReportBuilder.applyOp b).parts
      = b.parts ++ ops.flatMap Ej2.BuilderOp.fragments := by
  induction ops generalizing b with
  | nil => simp
  | cons op rest ih =>
    cases op <;>
      simp [List.foldl, Ej2.ReportBuilder.applyOp, Ej2.ReportBuilder.add,
        Ej2.ReportBuilder.separator, Ej2.ReportBuilder.header, Ej2.BuilderOp.fragments, ih]

/-- C4: for every `HistoryManager` (the `HistoryLog` of both exercises) and
every record, `save` followed by `get_all` yields the old sequence with the
record appended at the end (so the length grows by exactly one and `save`
always succeeds, being total), and a sequence of `N` `save` calls starting
from a fresh manager yields exactly those `N` records in the order they were
saved. -/
theorem C4_history_append_order {α : Type} (h : HistoryManager α) (r : α) (rs : List α) :
    ((h.save r).get_all = h.get_all ++ [r])
    ∧ ((h.save r).get_all.length = h.get_all.length + 1)
    ∧ ((rs.foldl HistoryManager.save (HistoryManager.init : HistoryManager α)).get_all = rs) := by
  refine ⟨rfl, by simp [HistoryManager.save, HistoryManager.get_all], ?_⟩
  simp [HistoryManager.get_all, HistoryManager.foldl_save, HistoryManager.init]

/-- C10: `ReportBuilder.build` is a pure observation: it equals the
concatenation of the accumulated `parts` (so it depends on nothing else,
does not change the builder, and two consecutive calls return equal
strings), and for a builder produced from a fresh one by any sequence of
`add` / `separator` / `header` calls it returns exactly the concatenation of
the appended fragments in append order. -/
theorem C10_build_is_concat (b : Ej2.ReportBuilder) (ops : List Ej2.BuilderOp) :
    (b.build = String.join b.parts)
    ∧ ((ops.foldl Ej2.ReportBuilder.applyOp Ej2.ReportBuilder.new).build
        = String.join (ops.flatMap Ej2.BuilderOp.fragments)) := by
  refine ⟨rfl, ?_⟩
  simp [Ej2.ReportBuilder.build, ReportBuilder.foldl_applyOp, Ej2.ReportBuilder.new]

/-- C8 counterexample: the code never seals a `ReportBuilder`.  `build()`
reads `self.parts` and leaves the builder unchanged, so in the concrete
trace build-then-add-then-build the `add` after the first `build()` succeeds
and the second `build()` returns the extended content — the builder is not
immutable once `build()` has been called. -/
theorem C8_counterexample :
    (Ej2.ReportBuilder.new.build = "")
    ∧ ((Ej2.ReportBuilder.new.add ("x")).build = "x\n")
    ∧ ((Ej2.ReportBuilder.new.add ("x")).parts.length
        = Ej2.ReportBuilder.new.parts.length + 1) := by
  refine ⟨rfl, ?_, rfl⟩
  simp [Ej2.ReportBuilder.build, Ej2.ReportBuilder.add, Ej2.ReportBuilder.new,
    stringJoin_singleton]

/-- C8 as amended: `ReportBuilder` has no sealed state.  `build()` is a pure
read of the accumulated parts, and `add` / `separator` / `header` always
succeed — also after any number of `build()` calls — extending `parts` and
the subsequently built content. -/
theorem C8_never_sealed (b : Ej2.ReportBuilder) (t : String) :
    ((b.add t).parts = b.parts ++ [t ++ "\n"])
    ∧ ((b.add t).build = b.build ++ (t ++ "\n"))
    ∧ (b.separator.parts = b.parts ++ [Ej2.dashRule ++ "\n"])
    ∧ ((b.header t).parts
        = b.parts ++ [Ej2.eqRule ++ "\n", "           " ++ t ++ "\n", Ej2.eqRule ++ "\n"]) := by
  refine ⟨rfl, ?_, rfl, rfl⟩
  simp [Ej2.ReportBuilder.build, Ej2.ReportBuilder.add, stringJoin_append,
    stringJoin_singleton]

/-- C9 counterexample: `get_all` returns the internal list object itself
(`return self.notifications`), so a previously returned view is retroactively
altered by a subsequent `save`: in a fresh store, the view returned before
the append reads `[]`, and the same view reads `[7]` after it. -/
theorem C9_counterexample :
    ((HistoryManagerRef.init (ListStore.mk ([] : List (List Nat)))).2.read
        (HistoryManagerRef.init (ListStore.mk ([] : List (List Nat)))).1.get_all = [])
    ∧ (((HistoryManagerRef.init (ListStore.mk ([] : List (List Nat)))).1.save 7
          (HistoryManagerRef.init (ListStore.mk ([] : List (List Nat)))).2).read
        (HistoryManagerRef.init (ListStore.mk ([] : List (List Nat)))).1.get_all = [7]) := by
  constructor <;> rfl

/-- C9 as amended: `get_all` returns an alias of the log's internal list
object, in insertion order, with no snapshot semantics: any view previously
returned by `get_all` sees every subsequent `save` (it reads the old contents
with the new record appended). -/
theorem C9_get_all_aliases {α : Type} (s : ListStore α) (h : HistoryManagerRef) (x : α)
    (hr : h.notifications < s.cells.length) :
    (h.save x s).read h.get_all = s.read h.get_all ++ [x] := by
  simp [HistoryManagerRef.save, HistoryManagerRef.get_all, ListStore.appendAt,
    ListStore.read, List.getD_eq_getElem?_getD, List.getElem?_set_self hr]

/-- Witness for `C9_get_all_aliases` at a concrete store: one manager owning
cell `0` of a one-cell store, one appended record. -/
theorem C9_get_all_aliases_witness :
    (HistoryManagerRef.save ⟨0⟩ (5 : Nat) (ListStore.mk [[]])).read
        (HistoryManagerRef.get_all ⟨0⟩)
      = (ListStore.mk [([] : List Nat)]).read (HistoryManagerRef.get_all ⟨0⟩) ++ [5] :=
  C9_get_all_aliases (ListStore.mk [[]]) ⟨0⟩ 5 (by decide)

/-- C1: for each of the four registries, `create(k)` succeeds exactly on the
registered keys — returning a strategy of that registry's interface type
(`NotificationStrategy.send`, `ReportStrategy.generate`,
`FormatStrategy.format`, `DeliveryStrategy.deliver`) — and on any other key
fails with exactly the registry's unknown-key `ValueError`, the only error
condition of `create`. -/
theorem C1_registry_create (k : String) :
    ((∃ s, Ej1.NotificationFactory.create k = .ok s)
        ↔ (k = "email" ∨ k = "sms" ∨ k = "push"))
    ∧ (¬(k = "email" ∨ k = "sms" ∨ k = "push") →
        Ej1.NotificationFactory.create k
          = .error ("Tipo de notificación desconocido: " ++ k))
    ∧ ((∃ s, Ej2.ReportFactory.create k = .ok s)
        ↔ (k = "sales" ∨ k = "inventory" ∨ k = "financial"))
    ∧ (¬(k = "sales" ∨ k = "inventory" ∨ k = "financial") →
        Ej2.ReportFactory.create k = .error ("Tipo de reporte desconocido: " ++ k))
    ∧ ((∃ s, Ej2.FormatFactory.create k = .ok s)
        ↔ (k = "pdf" ∨ k = "excel" ∨ k = "html"))
    ∧ (¬(k = "pdf" ∨ k = "excel" ∨ k = "html") →
        Ej2.FormatFactory.create k = .error ("Formato desconocido: " ++ k))
    ∧ ((∃ s, Ej2.DeliveryFactory.create k = .ok s)
        ↔ (k = "email" ∨ k = "download" ∨ k = "cloud"))
    ∧ (¬(k = "email" ∨ k = "download" ∨ k = "cloud") →
        Ej2.DeliveryFactory.create k = .error ("Método de entrega desconocido: " ++ k)) := by
  simp only [Ej1.NotificationFactory.notifCreate_eq, Ej2.ReportFactory.reportCreate_eq,
    Ej2.FormatFactory.formatCreate_eq, Ej2.DeliveryFactory.deliveryCreate_eq]
  refine ⟨?_, ?_, ?_, ?_, ?_, ?_, ?_, ?_⟩
  · split_ifs with h1 h2 h3 <;> simp_all
  · intro h; simp only [not_or] at h; simp [h.1, h.2.1, h.2.2]
  · split_ifs with h1 h2 h3 <;> simp_all
  · intro h; simp only [not_or] at h; simp [h.1, h.2.1, h.2.2]
  · split_ifs with h1 h2 h3 <;> simp_all
  · intro h; simp only [not_or] at h; simp [h.1, h.2.1, h.2.2]
  · split_ifs with h1 h2 h3 <;> simp_all
  · intro h; simp only [not_or] at h; simp [h.1, h.2.1, h.2.2]

/-- Witness for `C1_registry_create`: the unregistered key `"bogus"` hits the
unknown-key error of each of the four registries. -/
theorem C1_registry_create_witness :
    (Ej1.NotificationFactory.create "bogus"
        = .error ("Tipo de notificación desconocido: bogus"))
    ∧ (Ej2.ReportFactory.create "bogus" = .error ("Tipo de reporte desconocido: bogus"))
    ∧ (Ej2.FormatFactory.create "bogus" = .error ("Formato desconocido: bogus"))
    ∧ (Ej2.DeliveryFactory.create "bogus"
        = .error ("Método de entrega desconocido: bogus")) :=
  ⟨(C1_registry_create "bogus").2.1 (by decide),
   (C1_registry_create "bogus").2.2.2.1 (by decide),
   (C1_registry_create "bogus").2.2.2.2.2.1 (by decide),
   (C1_registry_create "bogus").2.2.2.2.2.2.2 (by decide)⟩

/-- C6: whenever the raw order dict is missing at least one required field,
`OrderInfo` construction fails with `KeyError` naming the first missing field
in the order `__init__` reads them, and no `OrderInfo` value is produced at
all. -/
theorem C6_missing_field_first (d : Ej1.OrderData) (hm : d.missingKeys ≠ []) :
    (Ej1.OrderInfo.ofData d = .error (d.missingKeys.headD ""))
    ∧ (∀ info, Ej1.OrderInfo.ofData d ≠ .ok info) := by
  obtain ⟨oid, cust, tot⟩ := d
  cases cust with
  | none =>
    cases oid <;> cases tot <;>
      simp [Ej1.OrderInfo.ofData, Ej1.OrderData.missingKeys]
  | some c =>
    obtain ⟨n, e, p, dv⟩ := c
    cases oid <;> cases tot <;> cases n <;> cases e <;> cases p <;> cases dv <;>
      simp_all [Ej1.OrderInfo.ofData, Ej1.OrderData.missingKeys]

/-- Witness for `C6_missing_field_first`: an order whose customer dict lacks
only `email` fails with exactly that key. -/
theorem C6_missing_field_first_witness :
    (Ej1.OrderInfo.ofData
        ⟨some "ORD-9", some ⟨some "Ana", none, some "+34", some "DEV"⟩, some "10"⟩
      = .error "email")
    ∧ (∀ info, Ej1.OrderInfo.ofData
        ⟨some "ORD-9", some ⟨some "Ana", none, some "+34", some "DEV"⟩, some "10"⟩
      ≠ .ok info) :=
  C6_missing_field_first
    ⟨some "ORD-9", some ⟨some "Ana", none, some "+34", some "DEV"⟩, some "10"⟩ (by decide)

/-- C5: for every valid order, `process_order` with channels
`["email", "sms"]` succeeds and appends exactly two records to the history,
in the order the channels were given: first the email record (its `type` is
`"email"`), then the SMS record (its `type` is `"sms"`). -/
theorem C5_email_sms_order (history : HistoryManager Ej1.NotifRecord)
    (order_data : Ej1.OrderData) (ts : String) (info : Ej1.OrderInfo)
    (hinfo : Ej1.OrderInfo.ofData order_data = .ok info) :
    ((Ej1.OrderProcessor.process_order history order_data ["email", "sms"] ts).err = none)
    ∧ ((Ej1.OrderProcessor.process_order history order_data ["email", "sms"] ts).history.get_all
        = history.get_all
          ++ [(Ej1.NotificationStrategy.EmailNotification.send info ts).1,
              (Ej1.NotificationStrategy.SMSNotification.send info ts).1])
    ∧ ((Ej1.NotificationStrategy.EmailNotification.send info ts).1.type = "email")
    ∧ ((Ej1.NotificationStrategy.SMSNotification.send info ts).1.type = "sms") := by
  have ce : Ej1.NotificationFactory.create "email" = .ok .EmailNotification := rfl
  have cs : Ej1.NotificationFactory.create "sms" = .ok .SMSNotification := rfl
  refine ⟨?_, ?_, rfl, rfl⟩ <;>
    simp [Ej1.OrderProcessor.process_order, hinfo, Ej1.processChannels, ce, cs,
      HistoryManager.save, HistoryManager.get_all]

/-- Witness for `C5_email_sms_order`: the first demo order of the source. -/
theorem C5_email_sms_order_witness :
    ((Ej1.OrderProcessor.process_order HistoryManager.init Ej1.order1 ["email", "sms"] "t").err
      = none)
    ∧ ((Ej1.OrderProcessor.process_order HistoryManager.init Ej1.order1
          ["email", "sms"] "t").history.get_all
        = HistoryManager.init.get_all
          ++ [(Ej1.NotificationStrategy.EmailNotification.send Ej1.order1Info "t").1,
              (Ej1.NotificationStrategy.SMSNotification.send Ej1.order1Info "t").1])
    ∧ ((Ej1.NotificationStrategy.EmailNotification.send Ej1.order1Info "t").1.type = "email")
    ∧ ((Ej1.NotificationStrategy.SMSNotification.send Ej1.order1Info "t").1.type = "sms") :=
  C5_email_sms_order HistoryManager.init Ej1.order1 "t" Ej1.order1Info (by rfl)

/-- C3 counterexample: `process_order` on a valid order with channels
`["email", "bogus"]` fails (the second lookup raises), yet the email record
of the first channel has already been written: the history of the failing
operation has length 1, not 0. -/
theorem C3_counterexample :
    ((Ej1.OrderProcessor.process_order HistoryManager.init Ej1.order1
        ["email", "bogus"] "t").err.isSome = true)
    ∧ ((Ej1.OrderProcessor.process_order HistoryManager.init Ej1.order1
        ["email", "bogus"] "t").history.get_all.length = 1) := by
  constructor <;> rfl

/-- C3 as amended: `ReportSystem.generate_report` writes no history record
and performs no later-stage side effect whenever it fails (a registry lookup
failure aborts before any side effect), and `OrderProcessor.process_order`
writes nothing when value-object extraction fails; but an unknown channel
key aborts the loop only before the failing channel's own record: the
history always extends by exactly the records of the channels preceding the
first unregistered one. -/
theorem C3_no_record_on_failure :
    (∀ (h : HistoryManager Ej2.ReportRecord) (report_type : String) (data : Ej2.ReportData)
        (output_format delivery_method ts e : String),
      (Ej2.ReportSystem.generate_report h report_type data
          output_format delivery_method ts).output = .error e →
        ((Ej2.ReportSystem.generate_report h report_type data
            output_format delivery_method ts).history = h
        ∧ (Ej2.ReportSystem.generate_report h report_type data
            output_format delivery_method ts).prints = []))
    ∧ (∀ (h : HistoryManager Ej1.NotifRecord) (d : Ej1.OrderData) (types : List String)
        (ts e : String),
        Ej1.OrderInfo.ofData d = .error e →
          Ej1.OrderProcessor.process_order h d types ts = ⟨h, [], some e⟩)
    ∧ (∀ (h : HistoryManager Ej1.NotifRecord) (d : Ej1.OrderData) (types : List String)
        (ts : String) (info : Ej1.OrderInfo),
        Ej1.OrderInfo.ofData d = .ok info →
          (Ej1.OrderProcessor.process_order h d types ts).history.get_all
            = h.get_all ++ Ej1.sentRecords info ts types) := by
  refine ⟨?_, ?_, ?_⟩
  · intro h report_type data output_format delivery_method ts e hout
    cases h1 : Ej2.ReportFactory.create report_type with
    | error e1 => simp [Ej2.ReportSystem.generate_report, h1]
    | ok s1 =>
      cases h2 : Ej2.FormatFactory.create output_format with
      | error e2 => simp [Ej2.ReportSystem.generate_report, h1, h2]
      | ok s2 =>
        cases h3 : Ej2.DeliveryFactory.create delivery_method with
        | error e3 => simp [Ej2.ReportSystem.generate_report, h1, h2, h3]
        | ok s3 =>
          cases h4 : s1.generate data ts with
          | error e4 => simp [Ej2.ReportSystem.generate_report, h1, h2, h3, h4]
          | ok content =>
            exfalso
            simp [Ej2.ReportSystem.generate_report, h1, h2, h3, h4] at hout
  · intro h d types ts e hof
    simp [Ej1.OrderProcessor.process_order, hof]
  · intro h d types ts info hinfo
    simp [Ej1.OrderProcessor.process_order, hinfo, HistoryManager.get_all,
      Ej1.processChannels_spec]

/-- Witness for `C3_no_record_on_failure`: an unknown report type leaves the
report history empty; an order dict missing `customer` leaves the
notification history untouched; and the run of `C3_counterexample` keeps
exactly the record of the channel before the unknown one. -/
theorem C3_no_record_on_failure_witness :
    ((Ej2.ReportSystem.generate_report HistoryManager.init "bogus"
        ⟨none, none, none, none, none⟩ "html" "cloud" "t").history = HistoryManager.init)
    ∧ ((Ej1.OrderProcessor.process_order
        (HistoryManager.init : HistoryManager Ej1.NotifRecord)
        ⟨none, none, none⟩ ["email"] "t")
        = ⟨HistoryManager.init, [], some "customer"⟩)
    ∧ ((Ej1.OrderProcessor.process_order HistoryManager.init Ej1.order1
          ["email", "bogus"] "t").history.get_all
        = HistoryManager.init.get_all
          ++ Ej1.sentRecords Ej1.order1Info "t" ["email", "bogus"]) :=
  ⟨(C3_no_record_on_failure.1 HistoryManager.init "bogus" ⟨none, none, none, none, none⟩
      "html" "cloud" "t" ("Tipo de reporte desconocido: bogus") (by rfl)).1,
   C3_no_record_on_failure.2.1 HistoryManager.init ⟨none, none, none⟩ ["email"] "t"
     "customer" (by rfl),
   C3_no_record_on_failure.2.2 HistoryManager.init Ej1.order1 ["email", "bogus"] "t"
     Ej1.order1Info (by rfl)⟩

/-- C2: the three-stage pipeline on `("financial", {income: 50000.00,
expenses: 32000.00}, "html", "cloud")` returns the generated content —
which contains the line `Balance: $18000.00` — wrapped in the HTML
formatter's markers, and appends exactly one history record with
`type = "financial"`, `format = "html"`, `delivery = "cloud"`.  Amounts are
in cents (`5000000 = $50000.00`). -/
theorem C2_financial_html_cloud :
    (∃ x y,
      (Ej2.ReportSystem.generate_report HistoryManager.init "financial"
          ⟨none, none, none, some 5000000, some 3200000⟩ "html" "cloud"
          "2024-01-01 10:00:00").output
        = .ok ("<html><body><pre>\n" ++ (x ++ "Balance: $18000.00\n" ++ y)
            ++ "\n</pre></body></html>"))
    ∧ ((Ej2.ReportSystem.generate_report HistoryManager.init "financial"
          ⟨none, none, none, some 5000000, some 3200000⟩ "html" "cloud"
          "2024-01-01 10:00:00").history.get_all
        = [⟨"financial", "html", "cloud", "2024-01-01 10:00:00"⟩]) := by
  refine ⟨⟨"" ++ Ej2.eqRule ++ "\n           REPORTE FINANCIERO\n" ++ Ej2.eqRule ++ "\nFecha de generación: 2024-01-01 10:00:00\n\nIngresos: $50000.00\nGastos: $32000.00\n", "", ?_⟩, ?_⟩ <;> rfl

/-- C7: the body hooks are pure aggregations over `data`.
`SalesReport.body` over sales `[{amount: 10.00}, {amount: 20.00}]` emits
text containing the total `$30.00` and the transaction count `2`, and
`InventoryReport.body` over items with category multiset `{A, A, B}` emits
`Categorías: 2`, the count of distinct categories. -/
theorem C7_body_aggregations :
    (∃ b, Ej2.ReportStrategy.SalesReport.body
          ⟨some "Enero", some [⟨"a", 1000⟩, ⟨"b", 2000⟩], none, none, none⟩
          Ej2.ReportBuilder.new = .ok b
        ∧ (∃ x y, b.build = x ++ "Total de ventas: $30.00\n" ++ y)
        ∧ (∃ x y, b.build = x ++ "Número de transacciones: 2\n" ++ y))
    ∧ (∃ b, Ej2.ReportStrategy.InventoryReport.body
          ⟨none, none, some [⟨"i1", "A", 1⟩, ⟨"i2", "A", 2⟩, ⟨"i3", "B", 3⟩], none, none⟩
          Ej2.ReportBuilder.new = .ok b
        ∧ (∃ x y, b.build = x ++ "Categorías: 2\n" ++ y)) := by
  refine ⟨⟨⟨["Total de ventas: $30.00\n", "Número de transacciones: 2\n", "Periodo: Enero\n\n", "Detalle de ventas:\n", "" ++ Ej2.dashRule ++ "\n", "  • Producto: a - $10.00\n", "  • Producto: b - $20.00\n"]⟩,
      rfl, ⟨"", "Número de transacciones: 2\nPeriodo: Enero\n\nDetalle de ventas:\n" ++ Ej2.dashRule ++ "\n  • Producto: a - $10.00\n  • Producto: b - $20.00\n", ?_⟩, ⟨"Total de ventas: $30.00\n", "Periodo: Enero\n\nDetalle de ventas:\n" ++ Ej2.dashRule ++ "\n  • Producto: a - $10.00\n  • Producto: b - $20.00\n", ?_⟩⟩,
    ⟨⟨["Total de productos: 6\n", "Categorías: 2\n\n", "Inventario actual:\n", "" ++ Ej2.dashRule ++ "\n", "  • i1 (A): 1 unidades\n", "  • i2 (A): 2 unidades\n", "  • i3 (B): 3 unidades\n"]⟩,
      rfl, ⟨"Total de productos: 6\n", "\nInventario actual:\n" ++ Ej2.dashRule ++ "\n  • i1 (A): 1 unidades\n  • i2 (A): 2 unidades\n  • i3 (B): 3 unidades\n", ?_⟩⟩⟩ <;> rfl
